import Mathlib

/-!
Verification of the pandoc-bot dialogue engine, queue codec and result
router, shallowly embedded from `src/main.rs`.

The bot keeps one `State` per Telegram conversation (persisted by
the teloxide `SqliteStorage`).  `bot_scheme` dispatches an inbound update
(message or callback query) to at most one handler depending on the
stored state; each handler sends messages, possibly updates the stored
dialogue state, and possibly publishes a conversion job on the
`pandoc-bot-jobs` AMQP queue.  An independent loop
(`listen_returning_queue`) consumes BSON-encoded `ConvertResponse`
messages from the `pandoc-outputs` queue and routes them back to the
originating chat.

The embedding models the messenger, blob store and queue as data: a
handler run is a value of `State × List Action` (or an ordered operation
trace where the claim is about ordering), and the BSON codec is modelled
at the document level (field name → typed value), which is the level at
which the serde derive and the `untagged` attribute operate.
-/

namespace PandocBot

/-- `enum State` from src/main.rs (lines 23-42).  `u8` is modelled as `Nat`;
the `Default` impl returns `Start`. -/
inductive State
  | Start
  | ReceiveFullName
  | ReceiveAge (full_name : String)
  | ReceiveLocation (full_name : String) (age : Nat)
  | ReceiveFromFiletype
  | ReceiveToFiletype (from_filetype : String)
  | ReceiveInputFile (from_filetype : String) (to_filetype : String)
  deriving DecidableEq, Repr

instance : Inhabited State := ⟨State.Start⟩

/-- A Telegram document attached to a message.  `bytes` are the contents of the file: the handler stages the file to disk via `bot.download_file` and
reads it back unchanged, so the blob store is modelled as the identity on
the uploaded bytes. -/
structure TgDocument where
  file_id : String
  file_name : Option String
  bytes : List Nat
  deriving DecidableEq, Repr

/-- An inbound update, as `bot_scheme` distinguishes them:
`Update::filter_message` (a message, with or without a document — a plain
text message carries none) and `Update::filter_callback_query` (a button
press, whose `data` payload is optional). -/
inductive Event
  | message (doc : Option TgDocument)
  | callback (data : Option String)
  deriving DecidableEq, Repr

/-- `struct ConvertRequest` from src/main.rs (lines 285-293). -/
structure ConvertRequest where
  chat_id : Int
  file : List Nat
  file_id : String
  from_filetype : String
  to_filetype : String
  deriving DecidableEq, Repr

/-- An outbound effect of a dialogue handler: a `bot.send_message` call
(with its optional inline keyboard, a list of rows of button labels) or a
`channel.basic_publish` of a BSON-encoded `ConvertRequest`.
`answer_callback_query` and keyboard removal are transport bookkeeping and
are not modelled. -/
inductive Action
  | sendMessage (chat_id : Int) (text : String) (keyboard : Option (List (List String)))
  | publish (queue : String) (req : ConvertRequest)
  deriving DecidableEq, Repr

/-- `FROM_FILETYPES` from src/main.rs line 396. -/
def FROM_FILETYPES : List String := ["markdown"]

/-- `TO_FILETYPES` from src/main.rs line 397. -/
def TO_FILETYPES : List String := ["pdf", "latex", "docx", "odt"]

/-- `filetype_to_extension` from src/main.rs (lines 399-408). -/
def filetype_to_extension (filetype : String) : String :=
  match filetype with
  | "markdown" => "md"
  | "pdf" => "pdf"
  | "latex" => "tex"
  | "docx" => "docx"
  | "odt" => "odt"
  | _ => "txt"

/-- The Rust slice method `chunks(n)`: splits a list into consecutive runs of `n`
elements (the last may be shorter).  Only called with `n = 3` here. -/
def chunksOf (n : Nat) : List String → List (List String)
  | [] => []
  | x :: xs => (x :: xs.take (n - 1)) :: chunksOf n (xs.drop (n - 1))
  termination_by l => l.length
  decreasing_by simp [List.length_drop]; omega

/-- `make_keyboard` from src/main.rs (lines 411-422): the label of each button
and callback data are the same string, so a keyboard is its grid of
labels. -/
def make_keyboard (contents : List String) (num_per_row : Nat) : List (List String) :=
  chunksOf num_per_row contents

/-- `make_from_keyboard` from src/main.rs. -/
def make_from_keyboard : List (List String) :=
  make_keyboard FROM_FILETYPES 3

/-- `make_to_keyboard` from src/main.rs. -/
def make_to_keyboard : List (List String) :=
  make_keyboard TO_FILETYPES 3

/-- Handler `start` from src/main.rs (lines 182-194): sends the source
format prompt with the FROM keyboard and updates the dialogue to
`ReceiveFromFiletype`. -/
def start (chat_id : Int) : State × List Action :=
  (State.ReceiveFromFiletype,
   [Action.sendMessage chat_id
      "Let\x27s start! Tell me the type of the original document."
      (some make_from_keyboard)])

/-- Handler `receive_from_filetype` from src/main.rs (lines 196-237):
on a callback payload in `FROM_FILETYPES`, sends the success prompt (TO
keyboard) and updates to `ReceiveToFiletype`; otherwise sends the fail
prompt (FROM keyboard again) and leaves the dialogue untouched. -/
def receive_from_filetype (chat_id : Int) (data : Option String) : State × List Action :=
  match data with
  | some from_filetype =>
    if FROM_FILETYPES.contains from_filetype then
      (State.ReceiveToFiletype from_filetype,
       [Action.sendMessage chat_id
          ("The type of the original document is set to <b>" ++ from_filetype ++
           "</b>. What format do you want for the output?")
          (some make_to_keyboard)])
    else
      (State.ReceiveFromFiletype,
       [Action.sendMessage chat_id "Tell me the type of the original document."
          (some make_from_keyboard)])
  | none =>
    (State.ReceiveFromFiletype,
     [Action.sendMessage chat_id "Tell me the type of the original document."
        (some make_from_keyboard)])

/-- Handler `receive_to_filetype` from src/main.rs (lines 239-283). -/
def receive_to_filetype (chat_id : Int) (from_filetype : String)
    (data : Option String) : State × List Action :=
  match data with
  | some to_filetype =>
    if TO_FILETYPES.contains to_filetype then
      (State.ReceiveInputFile from_filetype to_filetype,
       [Action.sendMessage chat_id
          ("The output format is set to <b>" ++ to_filetype ++
           "</b>. Now send me the file to be converted.")
          none])
    else
      (State.ReceiveToFiletype from_filetype,
       [Action.sendMessage chat_id "What format do you want for the output?"
          (some make_to_keyboard)])
  | none =>
    (State.ReceiveToFiletype from_filetype,
     [Action.sendMessage chat_id "What format do you want for the output?"
        (some make_to_keyboard)])

/-- Handler `receive_input_file` from src/main.rs (lines 310-394): with a
document attached, sends the processing notice, updates the dialogue back
to `Start` and publishes the `ConvertRequest` on `pandoc-bot-jobs`;
without one, sends the fail prompt (the code attaches the TO keyboard to
it) and leaves the dialogue untouched. -/
def receive_input_file (chat_id : Int) (from_filetype to_filetype : String)
    (doc : Option TgDocument) : State × List Action :=
  match doc with
  | some d =>
    (State.Start,
     [Action.sendMessage chat_id "The conversion is being performed ..." none,
      Action.publish "pandoc-bot-jobs"
        { chat_id := chat_id, file := d.bytes, file_id := d.file_id,
          from_filetype := from_filetype, to_filetype := to_filetype }])
  | none =>
    (State.ReceiveInputFile from_filetype to_filetype,
     [Action.sendMessage chat_id "Send me the file to be converted."
        (some make_to_keyboard)])

/-- The dispatch of `bot_scheme` from src/main.rs (lines 101-122): a
message is routed to `start` in state `Start` and to `receive_input_file`
in state `ReceiveInputFile`; a callback query is routed to
`receive_from_filetype` in state `ReceiveFromFiletype` and to
`receive_to_filetype` in state `ReceiveToFiletype`.  Every other
state/update pair matches no branch: the update is dropped and the stored
state is untouched. -/
def transition (chat_id : Int) (s : State) (e : Event) : State × List Action :=
  match s, e with
  | State.Start, Event.message _ => start chat_id
  | State.ReceiveInputFile f t, Event.message doc =>
      receive_input_file chat_id f t doc
  | State.ReceiveFromFiletype, Event.callback data =>
      receive_from_filetype chat_id data
  | State.ReceiveToFiletype f, Event.callback data =>
      receive_to_filetype chat_id f data
  | s, _ => (s, [])

/-- Sequential processing of a list of inbound updates for one chat,
threading the stored dialogue state and collecting the emitted actions in
order. -/
def runEvents (chat_id : Int) (s : State) : List Event → State × List Action
  | [] => (s, [])
  | e :: es =>
    let r := transition chat_id s e
    let rest := runEvents chat_id r.1 es
    (rest.1, r.2 ++ rest.2)

/-- The publish actions among the output of a handler run. -/
def publishes (actions : List Action) : List Action :=
  actions.filter (fun a => match a with | Action.publish _ _ => true | _ => false)

/-! ## The BSON queue codec

`bson::to_vec` / `bson::from_slice` with serde derive map a struct to a
BSON document: an ordered sequence of (field name, typed value) pairs.
The model works at that document level.  The three value types the two
envelopes use are `i64` (`chat_id`), binary (`#[serde(with =
"serde_bytes")] Vec<u8>`) and string. -/

/-- A BSON value of one of the types the envelopes use. -/
inductive BsonValue
  | int64 (i : Int)
  | binary (b : List Nat)
  | str (s : String)
  deriving DecidableEq, Repr

/-- A BSON document: ordered field name / value pairs. -/
def BsonDoc := List (String × BsonValue)

instance : DecidableEq BsonDoc := inferInstanceAs (DecidableEq (List (String × BsonValue)))

/-- Field lookup expecting an `i64`, as the serde deserializer does for an
`i64` struct field. -/
def getInt64 (d : BsonDoc) (key : String) : Option Int :=
  match List.lookup key d with
  | some (BsonValue.int64 i) => some i
  | _ => none

/-- Field lookup expecting a binary value (a `serde_bytes` `Vec<u8>`). -/
def getBinary (d : BsonDoc) (key : String) : Option (List Nat) :=
  match List.lookup key d with
  | some (BsonValue.binary b) => some b
  | _ => none

/-- Field lookup expecting a string. -/
def getStr (d : BsonDoc) (key : String) : Option String :=
  match List.lookup key d with
  | some (BsonValue.str s) => some s
  | _ => none

/-- Serialization of `ConvertRequest` (serde derive writes the fields in
declaration order). -/
def encodeRequest (r : ConvertRequest) : BsonDoc :=
  [("chat_id", BsonValue.int64 r.chat_id),
   ("file", BsonValue.binary r.file),
   ("file_id", BsonValue.str r.file_id),
   ("from_filetype", BsonValue.str r.from_filetype),
   ("to_filetype", BsonValue.str r.to_filetype)]

/-- Deserialization of `ConvertRequest`: each field is required and must
have its declared type; unknown fields are ignored (the serde default). -/
def decodeRequest (d : BsonDoc) : Option ConvertRequest := do
  let chat_id ← getInt64 d "chat_id"
  let file ← getBinary d "file"
  let file_id ← getStr d "file_id"
  let from_filetype ← getStr d "from_filetype"
  let to_filetype ← getStr d "to_filetype"
  pure { chat_id := chat_id, file := file, file_id := file_id,
         from_filetype := from_filetype, to_filetype := to_filetype }

/-- `enum ConvertResponse` from src/main.rs (lines 295-308), carried with
`#[serde(untagged)]`. -/
inductive ConvertResponse
  | Success (chat_id : Int) (file : List Nat) (to_filetype : String)
  | Failure (chat_id : Int) (error_msg : String)
  deriving DecidableEq, Repr

/-- Serialization of `ConvertResponse`: with `untagged`, each variant is
written as the bare document of its fields, with no variant tag. -/
def encodeResponse (r : ConvertResponse) : BsonDoc :=
  match r with
  | ConvertResponse.Success chat_id file to_filetype =>
    [("chat_id", BsonValue.int64 chat_id),
     ("file", BsonValue.binary file),
     ("to_filetype", BsonValue.str to_filetype)]
  | ConvertResponse.Failure chat_id error_msg =>
    [("chat_id", BsonValue.int64 chat_id),
     ("error_msg", BsonValue.str error_msg)]

/-- Deserialization attempt for the `Success` variant (its three required
fields with their types; unknown fields ignored). -/
def decodeSuccess (d : BsonDoc) : Option ConvertResponse := do
  let chat_id ← getInt64 d "chat_id"
  let file ← getBinary d "file"
  let to_filetype ← getStr d "to_filetype"
  pure (ConvertResponse.Success chat_id file to_filetype)

/-- Deserialization attempt for the `Failure` variant. -/
def decodeFailure (d : BsonDoc) : Option ConvertResponse := do
  let chat_id ← getInt64 d "chat_id"
  let error_msg ← getStr d "error_msg"
  pure (ConvertResponse.Failure chat_id error_msg)

/-- Deserialization of the `untagged` `ConvertResponse`: serde tries the
variants in declaration order against the document and returns the first
that matches; a document matching neither is a decode failure. -/
def decodeResponse (d : BsonDoc) : Option ConvertResponse :=
  match decodeSuccess d with
  | some r => some r
  | none => decodeFailure d

/-! ## The returning-queue loop (`listen_returning_queue`, lines 125-178)

Each consumed delivery is decoded (`bson::from_slice(&delivery.data)?`),
acknowledged (`delivery.ack(..)`), and then routed: a `Success` becomes a
`send_document` to its `chat_id`, a `Failure` a `send_message`.  The `?`
on the decode propagates the error out of `listen_returning_queue`,
ending the loop.  The loop body is modelled as an ordered trace of its
effects. -/

/-- A messenger call made by the returning-queue loop. -/
inductive RouteAction
  | sendDocument (chat_id : Int) (file : List Nat) (filename : String) (caption : String)
  | sendMessage (chat_id : Int) (text : String)
  deriving DecidableEq, Repr

/-- The routing of one decoded `ConvertResponse` (the `match res` at lines
140-173): a pure function of the response, consulting no dialogue
state. -/
def route (res : ConvertResponse) : List RouteAction :=
  match res with
  | ConvertResponse.Success chat_id file to_filetype =>
    [RouteAction.sendDocument chat_id file
       ("output." ++ filetype_to_extension to_filetype)
       ("Converted succesffully to <b>" ++ to_filetype ++ "</b>!")]
  | ConvertResponse.Failure chat_id error_msg =>
    [RouteAction.sendMessage chat_id
       ("Failed to perform the conversion:\n<pre>" ++ error_msg ++ "</pre>")]

/-- One ordered effect of the loop body. -/
inductive LoopOp
  | decoded (res : ConvertResponse)
  | ack
  | send (a : RouteAction)
  deriving DecidableEq, Repr

/-- One iteration of the consumption loop on the document of one delivery:
decode, then ack, then route.  A decode failure is the `?` propagating:
no ack, no routing, the iteration (and with it the loop) returns the
error. -/
def listen_iteration (data : BsonDoc) : Option (List LoopOp) :=
  match decodeResponse data with
  | none => none
  | some res => some ([LoopOp.decoded res, LoopOp.ack] ++ (route res).map LoopOp.send)

/-- The consumption loop over a finite prefix of the delivery stream:
returns the concatenated effect traces and whether the loop was still
alive afterwards (`false` means an error in an iteration ended
`listen_returning_queue`, leaving the remaining deliveries unconsumed). -/
def listen_loop : List BsonDoc → List LoopOp × Bool
  | [] => ([], true)
  | d :: rest =>
    match listen_iteration d with
    | none => ([], false)
    | some tr =>
      let r := listen_loop rest
      (tr ++ r.1, r.2)

/-- Whether a loop effect is the acknowledgement. -/
def opIsAck (op : LoopOp) : Bool :=
  match op with | LoopOp.ack => true | _ => false

/-- Whether a loop effect is a messenger send (the routing step). -/
def opIsSend (op : LoopOp) : Bool :=
  match op with | LoopOp.send _ => true | _ => false

/-- Whether a loop effect is a successful decode. -/
def opIsDecoded (op : LoopOp) : Bool :=
  match op with | LoopOp.decoded _ => true | _ => false

/-! ## Operation trace of `receive_input_file`

The success path of `receive_input_file` performs, in program order:
stage the file to disk, send the processing notice (line 359), save the
dialogue state back to `Start` (line 360), read the staged bytes and
publish the job (lines 363-388).  The claim about submission/state
ordering needs this trace. -/

/-- An ordered effect of a dialogue handler. -/
inductive HandlerOp
  | send (chat_id : Int) (text : String)
  | update (s : State)
  | publish (queue : String) (req : ConvertRequest)
  deriving DecidableEq, Repr

/-- The ordered effect trace of `receive_input_file` (lines 310-394). -/
def receive_input_file_trace (chat_id : Int) (from_filetype to_filetype : String)
    (doc : Option TgDocument) : List HandlerOp :=
  match doc with
  | some d =>
    [HandlerOp.send chat_id "The conversion is being performed ...",
     HandlerOp.update State.Start,
     HandlerOp.publish "pandoc-bot-jobs"
       { chat_id := chat_id, file := d.bytes, file_id := d.file_id,
         from_filetype := from_filetype, to_filetype := to_filetype }]
  | none =>
    [HandlerOp.send chat_id "Send me the file to be converted."]

/-- Whether a handler effect saves the dialogue state as `Start`. -/
def hopIsUpdateStart (op : HandlerOp) : Bool :=
  match op with | HandlerOp.update State.Start => true | _ => false

/-- Whether a handler effect is a queue publish. -/
def hopIsPublish (op : HandlerOp) : Bool :=
  match op with | HandlerOp.publish _ _ => true | _ => false

/-! ## Predicates used by the statements -/

/-- The inbound events each handler rejects, per state: an out-of-set
format choice or a missing callback payload while a format is awaited, and
a message without a document while the file is awaited. -/
def invalidEvent : State → Event → Prop
  | State.ReceiveFromFiletype, Event.callback (some d) => d ∉ FROM_FILETYPES
  | State.ReceiveFromFiletype, Event.callback none => True
  | State.ReceiveToFiletype _, Event.callback (some d) => d ∉ TO_FILETYPES
  | State.ReceiveToFiletype _, Event.callback none => True
  | State.ReceiveInputFile _ _, Event.message none => True
  | _, _ => False

/-- An action list that is exactly one corrective message send (no publish,
no second action). -/
def isErrorPrompt (acts : List Action) : Bool :=
  match acts with
  | [Action.sendMessage _ _ _] => true
  | _ => false

/-- Whether a response variant carries an output payload. -/
def responseHasPayload (r : ConvertResponse) : Bool :=
  match r with | ConvertResponse.Success _ _ _ => true | _ => false

/-- Whether a response variant carries an error message. -/
def responseHasError (r : ConvertResponse) : Bool :=
  match r with | ConvertResponse.Failure _ _ => true | _ => false

/-- The chat a routed messenger action is addressed to. -/
def routeChat (a : RouteAction) : Int :=
  match a with
  | RouteAction.sendDocument chat_id _ _ _ => chat_id
  | RouteAction.sendMessage chat_id _ => chat_id

/-- The `chat_id` a response correlates to. -/
def responseChat (r : ConvertResponse) : Int :=
  match r with
  | ConvertResponse.Success chat_id _ _ => chat_id
  | ConvertResponse.Failure chat_id _ => chat_id

/-- The `State` variants the conversion dialogue uses; `ReceiveFullName`,
`ReceiveAge` and `ReceiveLocation` are declared in the enum but belong to
no `bot_scheme` branch. -/
def usedState (s : State) : Bool :=
  match s with
  | State.ReceiveFullName => false
  | State.ReceiveAge _ => false
  | State.ReceiveLocation _ _ => false
  | _ => true

end PandocBot

/-! ## Theorems -/

namespace PandocBot

/-- C1: for every dialogue state and every event that is invalid for it
(an out-of-set format choice, a missing callback payload, or a message
without a document), the transition leaves the stored state unchanged and
emits a single corrective message; no handler updates the dialogue on
rejection. -/
theorem C1_rejection_preserves_state (c : Int) (s : State) (e : Event)
    (h : invalidEvent s e) :
    (transition c s e).1 = s ∧ isErrorPrompt (transition c s e).2 = true := by
  cases s with
  | Start => cases e <;> simp [invalidEvent] at h
  | ReceiveFullName => cases e <;> simp [invalidEvent] at h
  | ReceiveAge fn => cases e <;> simp [invalidEvent] at h
  | ReceiveLocation fn a => cases e <;> simp [invalidEvent] at h
  | ReceiveFromFiletype =>
    cases e with
    | message doc => simp [invalidEvent] at h
    | callback data =>
      cases data with
      | none => simp [transition, receive_from_filetype, isErrorPrompt]
      | some d =>
        simp [invalidEvent] at h
        simp [transition, receive_from_filetype, isErrorPrompt, h]
  | ReceiveToFiletype f =>
    cases e with
    | message doc => simp [invalidEvent] at h
    | callback data =>
      cases data with
      | none => simp [transition, receive_to_filetype, isErrorPrompt]
      | some d =>
        simp [invalidEvent] at h
        simp [transition, receive_to_filetype, isErrorPrompt, h]
  | ReceiveInputFile f t =>
    cases e with
    | callback data => simp [invalidEvent] at h
    | message doc =>
      cases doc with
      | none => simp [transition, receive_input_file, isErrorPrompt]
      | some d => simp [invalidEvent] at h

/-- C1 witness: the out-of-set choice "bogus" while the source format is
awaited leaves the state unchanged and produces one corrective message. -/
theorem C1_rejection_preserves_state_witness :
    (transition 5 State.ReceiveFromFiletype (Event.callback (some "bogus"))).1 =
      State.ReceiveFromFiletype ∧
    isErrorPrompt
      (transition 5 State.ReceiveFromFiletype (Event.callback (some "bogus"))).2 = true :=
  C1_rejection_preserves_state 5 State.ReceiveFromFiletype (Event.callback (some "bogus"))
    (by decide : ("bogus" : String) ∉ FROM_FILETYPES)

/-- C2 counterexample: from `State.Start` the concrete event sequence
ChoiceSelected "markdown", ChoiceSelected "pdf", FileReceived does NOT end
in `Start` with one published job — the two callback queries match no
`bot_scheme` branch in `Start`, so only the final message is handled (by
`start`), leaving the dialogue in `ReceiveFromFiletype` with no publish at
all. -/
theorem C2_counterexample :
    runEvents 1 State.Start
        [Event.callback (some "markdown"), Event.callback (some "pdf"),
         Event.message (some { file_id := "id1", file_name := some "doc.md",
                               bytes := [97, 98, 99] })] =
      (State.ReceiveFromFiletype,
       [Action.sendMessage 1 "Let\x27s start! Tell me the type of the original document."
          (some make_from_keyboard)]) ∧
    ¬ ((runEvents 1 State.Start
        [Event.callback (some "markdown"), Event.callback (some "pdf"),
         Event.message (some { file_id := "id1", file_name := some "doc.md",
                               bytes := [97, 98, 99] })]).1 = State.Start ∧
       publishes (runEvents 1 State.Start
        [Event.callback (some "markdown"), Event.callback (some "pdf"),
         Event.message (some { file_id := "id1", file_name := some "doc.md",
                               bytes := [97, 98, 99] })]).2 =
         [Action.publish "pandoc-bot-jobs"
           { chat_id := 1, file := [97, 98, 99], file_id := "id1",
             from_filetype := "markdown", to_filetype := "pdf" }]) :=
  ⟨rfl, by decide⟩

/-- C2 amended: starting in `ReceiveFromFiletype` (the state `Start`
moves to on any message), the sequence ChoiceSelected f, ChoiceSelected t,
FileReceived with f a valid source format and t a valid target format ends
back in `Start` and publishes exactly one job carrying f, t and the
uploaded bytes. -/
theorem C2_happy_path (c : Int) (f t : String) (d : TgDocument)
    (hf : f ∈ FROM_FILETYPES) (ht : t ∈ TO_FILETYPES) :
    (runEvents c State.ReceiveFromFiletype
       [Event.callback (some f), Event.callback (some t), Event.message (some d)]).1 =
      State.Start ∧
    publishes (runEvents c State.ReceiveFromFiletype
       [Event.callback (some f), Event.callback (some t), Event.message (some d)]).2 =
      [Action.publish "pandoc-bot-jobs"
        { chat_id := c, file := d.bytes, file_id := d.file_id,
          from_filetype := f, to_filetype := t }] := by
  simp [runEvents, transition, receive_from_filetype, receive_to_filetype,
        receive_input_file, publishes, hf, ht]

/-- C2 witness: the concrete scenario markdown → pdf with bytes
`[97, 98, 99]` runs through the amended happy path. -/
theorem C2_happy_path_witness :
    (runEvents 1 State.ReceiveFromFiletype
       [Event.callback (some "markdown"), Event.callback (some "pdf"),
        Event.message (some { file_id := "id1", file_name := some "doc.md",
                              bytes := [97, 98, 99] })]).1 =
      State.Start ∧
    publishes (runEvents 1 State.ReceiveFromFiletype
       [Event.callback (some "markdown"), Event.callback (some "pdf"),
        Event.message (some { file_id := "id1", file_name := some "doc.md",
                              bytes := [97, 98, 99] })]).2 =
      [Action.publish "pandoc-bot-jobs"
        { chat_id := 1, file := [97, 98, 99], file_id := "id1",
          from_filetype := "markdown", to_filetype := "pdf" }] :=
  C2_happy_path 1 "markdown" "pdf"
    { file_id := "id1", file_name := some "doc.md", bytes := [97, 98, 99] }
    (by decide) (by decide)

/-- C3 counterexample: it is not the case that every successfully handled
delivery routes its response to the messenger before the acknowledgement —
on the encoded failure response for chat 7, `delivery.ack` runs before the
`send_message`. -/
theorem C3_counterexample :
    ¬ ∀ (d : BsonDoc) (tr : List LoopOp), listen_iteration d = some tr →
        tr.findIdx opIsSend < tr.findIdx opIsAck := by
  intro h
  exact absurd (h (encodeResponse (ConvertResponse.Failure 7 "boom")) _ rfl) (by decide)

/-- C3 amended: in every successfully handled delivery the acknowledgement
comes after the message is decoded but BEFORE it is routed to the
messenger (and a routing send does occur). -/
theorem C3_ack_after_decode_before_route (d : BsonDoc) (tr : List LoopOp)
    (h : listen_iteration d = some tr) :
    tr.findIdx opIsDecoded < tr.findIdx opIsAck ∧
    tr.findIdx opIsAck < tr.findIdx opIsSend ∧
    tr.findIdx opIsSend < tr.length := by
  unfold listen_iteration at h
  cases hd : decodeResponse d with
  | none => rw [hd] at h; exact absurd h (by simp)
  | some res =>
    rw [hd] at h
    cases h
    cases res <;> simp [route, List.findIdx_cons, opIsDecoded, opIsAck, opIsSend]

/-- C3 witness: the amended ordering holds on the trace of the encoded
failure response for chat 7. -/
theorem C3_ack_after_decode_before_route_witness :
    ([LoopOp.decoded (ConvertResponse.Failure 7 "boom"), LoopOp.ack,
      LoopOp.send (RouteAction.sendMessage 7
        "Failed to perform the conversion:\n<pre>boom</pre>")].findIdx opIsDecoded <
     [LoopOp.decoded (ConvertResponse.Failure 7 "boom"), LoopOp.ack,
      LoopOp.send (RouteAction.sendMessage 7
        "Failed to perform the conversion:\n<pre>boom</pre>")].findIdx opIsAck) ∧
    ([LoopOp.decoded (ConvertResponse.Failure 7 "boom"), LoopOp.ack,
      LoopOp.send (RouteAction.sendMessage 7
        "Failed to perform the conversion:\n<pre>boom</pre>")].findIdx opIsAck <
     [LoopOp.decoded (ConvertResponse.Failure 7 "boom"), LoopOp.ack,
      LoopOp.send (RouteAction.sendMessage 7
        "Failed to perform the conversion:\n<pre>boom</pre>")].findIdx opIsSend) ∧
    [LoopOp.decoded (ConvertResponse.Failure 7 "boom"), LoopOp.ack,
      LoopOp.send (RouteAction.sendMessage 7
        "Failed to perform the conversion:\n<pre>boom</pre>")].findIdx opIsSend <
    [LoopOp.decoded (ConvertResponse.Failure 7 "boom"), LoopOp.ack,
      LoopOp.send (RouteAction.sendMessage 7
        "Failed to perform the conversion:\n<pre>boom</pre>")].length :=
  C3_ack_after_decode_before_route (encodeResponse (ConvertResponse.Failure 7 "boom")) _ rfl

/-- C4: every `ConvertResponse` decodes from its own encoding to the
variant it came from — the wire document alone distinguishes `Success`
from `Failure` even though the representation is field-set based
(`serde(untagged)`), because `Failure` documents lack the binary `file`
field `Success` requires — and no response value carries both an output
payload and an error message. -/
theorem C4_response_wire_format :
    (∀ r : ConvertResponse, decodeResponse (encodeResponse r) = some r) ∧
    (∀ r : ConvertResponse, (responseHasPayload r && responseHasError r) = false) := by
  constructor
  · intro r; cases r <;> rfl
  · intro r; cases r <;> rfl

/-- C5: decoding the encoding of any valid envelope value — a
`ConvertRequest` or a `ConvertResponse` — yields the value back under the
BSON codec. -/
theorem C5_codec_round_trip :
    (∀ r : ConvertRequest, decodeRequest (encodeRequest r) = some r) ∧
    (∀ r : ConvertResponse, decodeResponse (encodeResponse r) = some r) := by
  constructor
  · intro r; rfl
  · intro r; cases r <;> rfl

/-- C6 counterexample: a malformed message on the results queue ends the
consumption loop — on a one-field junk document followed by a well-formed
failure response, the loop produces no effects at all (the junk message is
neither acked nor dead-lettered) and the well-formed message is never
consumed; so it is not the case that the loop survives every delivery
list. -/
theorem C6_counterexample :
    listen_loop [[("x", BsonValue.str "y")],
                 encodeResponse (ConvertResponse.Failure 7 "boom")] = ([], false) ∧
    ¬ ∀ ds : List BsonDoc, (listen_loop ds).2 = true :=
  ⟨rfl, fun h => absurd (h [[("x", BsonValue.str "y")]]) (by decide)⟩

/-- C6 amended: an undecodable message terminates the consumption loop
with an error: it is not acknowledged, nothing is routed, and no later
delivery is consumed. -/
theorem C6_decode_failure_ends_loop (bad : BsonDoc) (rest : List BsonDoc)
    (h : decodeResponse bad = none) :
    listen_loop (bad :: rest) = ([], false) := by
  simp [listen_loop, listen_iteration, h]

/-- C6 witness: the junk document `{x: "y"}` kills the loop even with a
well-formed response waiting behind it. -/
theorem C6_decode_failure_ends_loop_witness :
    listen_loop ([("x", BsonValue.str "y")] ::
      [encodeResponse (ConvertResponse.Failure 7 "boom")]) = ([], false) :=
  C6_decode_failure_ends_loop [("x", BsonValue.str "y")]
    [encodeResponse (ConvertResponse.Failure 7 "boom")] rfl

/-- C7: routing a response is a pure function of the response alone:
`Success` yields exactly one send-document action to its `chat_id` with
the payload bytes and a target-format-derived filename, `Failure` exactly
one send-text action containing the error message, and every routed
action is addressed to the chat embedded in the response. -/
theorem C7_route_pure :
    (∀ (c : Int) (f : List Nat) (t : String),
       route (ConvertResponse.Success c f t) =
         [RouteAction.sendDocument c f ("output." ++ filetype_to_extension t)
            ("Converted succesffully to <b>" ++ t ++ "</b>!")]) ∧
    (∀ (c : Int) (e : String),
       route (ConvertResponse.Failure c e) =
         [RouteAction.sendMessage c
            ("Failed to perform the conversion:\n<pre>" ++ e ++ "</pre>")]) ∧
    (∀ r : ConvertResponse, (route r).map routeChat = [responseChat r]) := by
  refine ⟨fun c f t => rfl, fun c e => rfl, fun r => ?_⟩
  cases r <;> rfl

/-- C8 counterexample: in `State.Start` a callback query (a choice
selection) matches no `bot_scheme` branch — the state stays `Start` and
nothing is sent — so not every inbound event moves `Start` to
`ReceiveFromFiletype`. -/
theorem C8_counterexample :
    transition 1 State.Start (Event.callback (some "markdown")) = (State.Start, []) ∧
    ¬ ∀ (c : Int) (e : Event),
        (transition c State.Start e).1 = State.ReceiveFromFiletype :=
  ⟨rfl, fun h => absurd (h 1 (Event.callback (some "markdown"))) (by decide)⟩

/-- C8 amended: in `State.Start` every inbound MESSAGE (a text or a file)
moves the dialogue to `ReceiveFromFiletype` with the source-format prompt
and the FROM keyboard, while a callback query is not dispatched to any
handler and changes nothing. -/
theorem C8_start_prompts_source_format (c : Int) (doc : Option TgDocument)
    (data : Option String) :
    transition c State.Start (Event.message doc) =
      (State.ReceiveFromFiletype,
       [Action.sendMessage c "Let\x27s start! Tell me the type of the original document."
          (some make_from_keyboard)]) ∧
    transition c State.Start (Event.callback data) = (State.Start, []) :=
  ⟨rfl, rfl⟩

/-- C9: when a file is accepted in `ReceiveInputFile`, the handler saves
the dialogue back to `Start` strictly before it publishes the job on the
work queue (and a publish does occur). -/
theorem C9_state_saved_before_publish (c : Int) (f t : String) (d : TgDocument) :
    (receive_input_file_trace c f t (some d)).findIdx hopIsUpdateStart <
      (receive_input_file_trace c f t (some d)).findIdx hopIsPublish ∧
    (receive_input_file_trace c f t (some d)).findIdx hopIsPublish <
      (receive_input_file_trace c f t (some d)).length := by
  simp [receive_input_file_trace, List.findIdx_cons, hopIsUpdateStart, hopIsPublish]

/-- Any event taken from a used dialogue state lands in a used dialogue
state: no handler ever produces `ReceiveFullName`, `ReceiveAge` or
`ReceiveLocation`. -/
theorem usedState_transition (c : Int) (s : State) (e : Event)
    (h : usedState s = true) : usedState (transition c s e).1 = true := by
  cases s with
  | Start => cases e <;> rfl
  | ReceiveFullName => simp [usedState] at h
  | ReceiveAge fn => simp [usedState] at h
  | ReceiveLocation fn a => simp [usedState] at h
  | ReceiveFromFiletype =>
    cases e with
    | message doc => rfl
    | callback data =>
      cases data with
      | none => rfl
      | some d =>
        simp only [transition, receive_from_filetype]
        split <;> rfl
  | ReceiveToFiletype f =>
    cases e with
    | message doc => rfl
    | callback data =>
      cases data with
      | none => rfl
      | some d =>
        simp only [transition, receive_to_filetype]
        split <;> rfl
  | ReceiveInputFile f t =>
    cases e with
    | callback data => rfl
    | message doc => cases doc <;> rfl

/-- C10: from the default state `Start` only the four conversion states
are reachable through the handlers (`ReceiveFullName`, `ReceiveAge` and
`ReceiveLocation` are never produced), and a conversation stuck in one of
those three leftover states is dispatched to no handler: no event changes
it or emits anything. -/
theorem C10_unused_states_unreachable :
    (∀ (c : Int) (es : List Event), usedState (runEvents c State.Start es).1 = true) ∧
    (∀ (c : Int) (e : Event) (fn : String) (a : Nat),
       transition c State.ReceiveFullName e = (State.ReceiveFullName, []) ∧
       transition c (State.ReceiveAge fn) e = (State.ReceiveAge fn, []) ∧
       transition c (State.ReceiveLocation fn a) e = (State.ReceiveLocation fn a, [])) := by
  constructor
  · intro c es
    have key : ∀ (es : List Event) (s : State), usedState s = true →
        usedState (runEvents c s es).1 = true := by
      intro es
      induction es with
      | nil => intro s hs; simpa [runEvents] using hs
      | cons e es ih =>
        intro s hs
        simp only [runEvents]
        exact ih _ (usedState_transition c s e hs)
    exact key es State.Start rfl
  · intro c e fn a
    refine ⟨?_, ?_, ?_⟩ <;> cases e <;> rfl

end PandocBot
